import Mathlib

/-!
Verification development for the calendar-normalization and multi-year
statistical aggregation engine of `src/visualisation/plotly_chroniques.py`
(class `TimeSeriesPlot_Plotly`).  The pandas pipeline of `__init__` and
`add_series` is shallowly embedded: dataframes become lists of typed rows,
float values become rationals, missing values become `Option`, and the
Python exceptions that the code can raise become an explicit error type.
-/

set_option maxRecDepth 8000

namespace BBApp

/-! ## Gregorian calendar primitives (pandas `Timestamp` accessors) -/

/-- Gregorian leap-year rule, as in pandas `dt.is_leap_year`. -/
def isLeap (y : Nat) : Bool :=
  y % 4 == 0 && (y % 100 != 0 || y % 400 == 0)

/-- Number of days of month `m` of year `y`. -/
def daysInMonth (y m : Nat) : Nat :=
  if m == 2 then (if isLeap y then 29 else 28)
  else if m == 4 || m == 6 || m == 9 || m == 11 then 30 else 31

/-- A calendar date (year, month, day). -/
structure Date where
  y : Nat
  m : Nat
  d : Nat
deriving DecidableEq, Repr, Inhabited

/-- pandas `dt.dayofyear`: ordinal of the date within its calendar year
(Feb 29 is day 60 in a leap year). -/
def dayOfYear (dt : Date) : Nat :=
  (List.range (dt.m - 1)).foldl (fun acc i => acc + daysInMonth dt.y (i + 1)) dt.d

/-- Chronological order on dates. -/
def dateLe (a b : Date) : Bool :=
  if a.y == b.y then
    (if a.m == b.m then Nat.ble a.d b.d else Nat.blt a.m b.m)
  else Nat.blt a.y b.y

/-- Number of days of year `y`. -/
def daysInYear (y : Nat) : Nat :=
  if isLeap y then 366 else 365

/-- Convert an ordinal `k` in `1..daysInYear y` into the date of year `y`
with that day-of-year, peeling off months (the fuel is the 12 months). -/
def dateOfOrdinalGo (y : Nat) : Nat → Nat → Nat → Date
  | 0, m, k => ⟨y, m, k⟩
  | fuel + 1, m, k =>
      if Nat.ble k (daysInMonth y m) then ⟨y, m, k⟩
      else dateOfOrdinalGo y fuel (m + 1) (k - daysInMonth y m)

/-- The date of year `y` with day-of-year ordinal `k`. -/
def dateOfOrdinal (y k : Nat) : Date :=
  dateOfOrdinalGo y 12 1 k

/-! ## Generic list helpers mirroring pandas behaviour -/

/-- Keep the first occurrence of each element (pandas `Series.unique`). -/
def uniqFirstGo [DecidableEq α] (seen : List α) : List α → List α
  | [] => []
  | x :: xs => if x ∈ seen then uniqFirstGo seen xs else x :: uniqFirstGo (x :: seen) xs

/-- Insert `x` after all elements `le`-below-or-equal to it (stable insertion). -/
def insertLe (le : α → α → Bool) (x : α) : List α → List α
  | [] => [x]
  | y :: ys => if le y x then y :: insertLe le x ys else x :: y :: ys

/-- Stable insertion sort with respect to a boolean `le`. -/
def isortStable (le : α → α → Bool) (l : List α) : List α :=
  l.foldl (fun acc x => insertLe le x acc) []

/-- Concat-map, kept self-contained. -/
def catMaps : List α → (α → List β) → List β
  | [], _ => []
  | x :: xs, f => f x ++ catMaps xs f

/-- All days of year `y`, in order. -/
def daysOfYear (y : Nat) : List Date :=
  (List.range (daysInYear y)).map (fun k => dateOfOrdinal y (k + 1))

/-- pandas `pd.date_range` from Jan 1 of `lo` to Dec 31 of `hi` with daily
frequency - the only shape of daily index the gap filler builds. -/
def dateRangeYears (lo hi : Nat) : List Date :=
  catMaps (List.range (hi + 1 - lo)) (fun j => daysOfYear (lo + j))

/-- Pair each element with its position, starting at `n`. -/
def withIdx : Nat → List α → List (Nat × α)
  | _, [] => []
  | n, x :: xs => (n, x) :: withIdx (n + 1) xs

/-- pandas `mean` over a column with missing values: NaN entries are skipped,
and an all-NaN column yields NaN. -/
def meanOpt (l : List (Option ℚ)) : Option ℚ :=
  let vs := l.filterMap id
  if vs.isEmpty then none else some (vs.foldl (· + ·) 0 / (vs.length : ℚ))

/-! ## Linear interpolation (pandas `DataFrame.interpolate` with the linear method)

Positional linear interpolation: interior runs of NaN between two valid
values get equally spaced values, NaNs before the first valid value stay
NaN, NaNs after the last valid value are filled with that last value. -/

/-- Values for a run of `k` missing slots strictly between `v` and `w`. -/
def lerpFill (v w : ℚ) (k : Nat) : List (Option ℚ) :=
  (List.range k).map (fun i => some (v + (w - v) * ((i : ℚ) + 1) / ((k : ℚ) + 1)))

/-- Worker: `prev` is the last valid value seen, `pending` counts the NaN run
currently open. -/
def interpGo : Option ℚ → Nat → List (Option ℚ) → List (Option ℚ)
  | prev, pending, [] =>
      (match prev with
       | none => List.replicate pending none
       | some v => List.replicate pending (some v))
  | prev, pending, none :: rest => interpGo prev (pending + 1) rest
  | prev, pending, some w :: rest =>
      (match prev with
       | none => List.replicate pending none
       | some v => lerpFill v w pending) ++ some w :: interpGo (some w) 0 rest

/-- pandas positional linear interpolation of one column. -/
def interpolateLinear (l : List (Option ℚ)) : List (Option ℚ) :=
  interpGo none 0 l

/-! ## Gap filler (`add_series` lines 220-246)

`start_dates`/`end_dates` are per-calendar-year min/max of the observed
dates; a year is complete when they are Jan 1 and Dec 31.  If any year is
complete, a daily index over the full complete-year span is built, the
observed rows are left-joined onto it (rows outside the span are dropped),
and the value column is linearly interpolated. -/

/-- Sorted distinct calendar years of the input (the groupby index). -/
def yearsSorted (rows : List (Date × ℚ)) : List Nat :=
  isortStable (fun a b => decide (a ≤ b)) (uniqFirstGo [] (rows.map (fun r => r.1.y)))

/-- Calendar years whose first observed date is Jan 1 and last observed date
is Dec 31 (`complete_years`, lines 223-228). -/
def completeYears (rows : List (Date × ℚ)) : List Nat :=
  (yearsSorted rows).filter (fun y =>
    let ds := (rows.map (fun r => r.1)).filter (fun d => d.y == y)
    let mn := ds.foldl (fun a b => if dateLe b a then b else a) (ds.headD ⟨y, 1, 1⟩)
    let mx := ds.foldl (fun a b => if dateLe a b then b else a) (ds.headD ⟨y, 1, 1⟩)
    mn == (⟨y, 1, 1⟩ : Date) && mx == (⟨y, 12, 31⟩ : Date))

/-- `df_complete.join(df)` (line 241): left join of the observed rows onto the
daily index; a day with no observation becomes a NaN row, duplicated observed
days are replicated. -/
def joinDaily (range : List Date) (rows : List (Date × ℚ)) : List (Date × Option ℚ) :=
  catMaps range (fun d =>
    let ms := rows.filter (fun r => r.1 == d)
    if ms.isEmpty then [(d, none)] else ms.map (fun r => (r.1, some r.2)))

/-- Gap filler of `add_series` (lines 220-246): with no complete year the
input passes through untouched; otherwise the daily index over
`[min(complete)-01-01, max(complete)-12-31]` is built, joined and linearly
interpolated. -/
def gapFill (rows : List (Date × ℚ)) : List (Date × Option ℚ) :=
  match completeYears rows with
  | [] => rows.map (fun r => (r.1, some r.2))
  | c :: cs =>
      let lo := cs.foldl Nat.min c
      let hi := cs.foldl Nat.max c
      let range := dateRangeYears lo hi
      let joined := joinDaily range rows
      let vals := interpolateLinear (joined.map (fun r => r.2))
      (joined.map (fun r => r.1)).zip vals

/-! ## Calendar normalizer (`add_series` lines 248-295)

`df_analysis` gains `year`, `doy` (leap-adjusted), `week_num`, `month_num`
columns; Feb 29 rows are dropped; with a custom `start_month` the data is
restricted to the full fiscal window, `month_num` is rotated, `year` is
reassigned and `doy` is recomputed as a running count per fiscal year. -/

/-- The Python exceptions the embedded pipeline can raise. -/
inductive PyErr
  /-- `unique_years[-rolling_window]` with fewer years than the window. -/
  | indexError
  /-- the rolling loop reads `result_df` with `freq` outside `{D, W, ME}`. -/
  | unboundLocal
  /-- `pd.Timestamp(year=nan, ...)` from an empty frame with a start month. -/
  | nanTimestamp
deriving DecidableEq, Repr

/-- One row of the working dataframe. -/
structure Row where
  date : Date
  value : Option ℚ
  year : Int
  doy : Nat
  week : Nat
  month : Nat
deriving DecidableEq, Repr, Inhabited

/-- Leap-adjusted day of year (lines 254-255): in a leap year every raw
day-of-year above 59 (i.e. Feb 29 onwards) is decremented by 1. -/
def rawDoyAdj (d : Date) : Nat :=
  let r := dayOfYear d
  if isLeap d.y && decide (r > 59) then r - 1 else r

/-- Week bucket (lines 258-259): `((doy - 1) // 7) + 1`, values above 52
clamped to 52. -/
def weekOf (doy : Nat) : Nat :=
  Nat.min ((doy - 1) / 7 + 1) 52

/-- Lines 250-261: add `year`, adjusted `doy`, drop Feb 29, add `week_num`
and `month_num`. -/
def normalizeBase (rows : List (Date × Option ℚ)) : List Row :=
  (rows.filter (fun r => !(r.1.m == 2 && r.1.d == 29))).map (fun r =>
    { date := r.1, value := r.2, year := (r.1.y : Int),
      doy := rawDoyAdj r.1, week := weekOf (rawDoyAdj r.1), month := r.1.m })

/-- The non-leap `days_per_month` dict of lines 265-269. -/
def daysPerMonthTable (m : Nat) : Nat :=
  if m == 2 then 28 else if m == 4 || m == 6 || m == 9 || m == 11 then 30 else 31

/-- Fiscal-year reassignment (lines 283-286): with start month `m ≤ 6`,
calendar months before `m` move back one year; with `m > 6`, calendar months
`≥ m` move forward one year. -/
def fiscalShift (m : Nat) (month : Nat) (year : Int) : Int :=
  if m ≤ 6 then (if month < m then year - 1 else year)
  else (if m ≤ month then year + 1 else year)

/-- `month_num` rotation (line 281): `((month - m) % 12) + 1` with Python
(non-negative) modulo. -/
def rotMonth (m month : Nat) : Nat :=
  (((month : Int) - (m : Int)).emod 12).toNat + 1

/-- `groupby(year).cumcount() + 1` (line 289) in the current row order. -/
def cumcountGo : List (Int × Nat) → List Row → List Row
  | _, [] => []
  | counts, r :: rs =>
      let c := ((counts.lookup r.year).getD 0) + 1
      { r with doy := c } :: cumcountGo ((r.year, c) :: counts) rs

/-- Order for `sort_values` by month then day of year. -/
def rowLeMD (a b : Row) : Bool :=
  decide (a.month < b.month) || (a.month == b.month && decide (a.doy ≤ b.doy))

/-- Order for `sort_values` by year then day of year. -/
def rowLeYD (a b : Row) : Bool :=
  decide (a.year < b.year) || (a.year == b.year && decide (a.doy ≤ b.doy))

/-- Custom start-month processing (lines 264-295), applied to nonempty data. -/
def startMonthAdjust (m : Nat) (base : List Row) : List Row :=
  let ys := base.map (fun r => r.date.y)
  let yMin := ys.foldl Nat.min (ys.headD 0)
  let yMax := ys.foldl Nat.max (ys.headD 0)
  let start : Date := ⟨yMin, m, 1⟩
  let stop : Date := ⟨yMax, m - 1, daysPerMonthTable (m - 1)⟩
  let w := base.filter (fun r => dateLe start r.date && dateLe r.date stop)
  let w2 := w.map (fun r =>
    { r with month := rotMonth m r.date.m, year := fiscalShift m r.date.m r.year })
  let w3 := isortStable rowLeMD w2
  let w4 := cumcountGo [] w3
  let w5 := w4.map (fun r => { r with week := weekOf r.doy })
  isortStable rowLeYD w5

/-- The calendar normalizer: lines 248-295.  With a custom start month and an
empty frame, `pd.Timestamp(year=nan, ...)` (line 271) raises. -/
def normalize (sm : Option Nat) (rows : List (Date × Option ℚ)) :
    Except PyErr (List Row) :=
  let base := normalizeBase rows
  match sm with
  | none => .ok base
  | some m => if base.isEmpty then .error .nanTimestamp else .ok (startMonthAdjust m base)

/-! ## Resampler (`add_series` lines 297-320) -/

/-- Resampling frequency strings accepted by the pipeline; `none` models
`freq=None` (and any string other than `W`/`ME`/`D` behaves like the
daily default everywhere except the rolling branch). -/
inductive Freq | D | W | ME
deriving DecidableEq, Repr

/-- Sorted distinct `Nat` keys of a groupby. -/
def keysNat (l : List Nat) : List Nat :=
  isortStable (fun a b => decide (a ≤ b)) (uniqFirstGo [] l)

/-- Lexicographic order on `(Int, Nat)` group keys. -/
def pairLeIN (a b : Int × Nat) : Bool :=
  decide (a.1 < b.1) || (a.1 == b.1 && decide (a.2 ≤ b.2))

/-- Sorted distinct `(Int, Nat)` keys of a groupby. -/
def keysIN (l : List (Int × Nat)) : List (Int × Nat) :=
  isortStable pairLeIN (uniqFirstGo [] l)

/-- Weekly resampling (lines 297-307): group by `(year, week_num)`, take the
first `time`/`doy`/`month_num` and the mean of the value. -/
def resampleW (rows : List Row) : List Row :=
  (keysIN (rows.map (fun r => (r.year, r.week)))).map (fun k =>
    let g := rows.filter (fun r => r.year == k.1 && r.week == k.2)
    { date := (g.headD default).date, value := meanOpt (g.map (fun r => r.value)),
      year := k.1, doy := (g.headD default).doy, week := k.2,
      month := (g.headD default).month })

/-- Monthly resampling (lines 308-318): group by `(year, month_num)`. -/
def resampleME (rows : List Row) : List Row :=
  (keysIN (rows.map (fun r => (r.year, r.month)))).map (fun k =>
    let g := rows.filter (fun r => r.year == k.1 && r.month == k.2)
    { date := (g.headD default).date, value := meanOpt (g.map (fun r => r.value)),
      year := k.1, doy := (g.headD default).doy, week := (g.headD default).week,
      month := k.2 })

/-- Lines 297-320: anything other than `W`/`ME` keeps the daily rows. -/
def resample (freq : Option Freq) (rows : List Row) : List Row :=
  match freq with
  | some .W => resampleW rows
  | some .ME => resampleME rows
  | _ => rows

/-! ## Engine configuration (`__init__`, lines 78-147) -/

/-- The three visualization modes. -/
inductive Mode | historical | annualCycle | statistics
deriving DecidableEq, Repr

/-- The warnings `__init__` and `add_series` can log. -/
inductive Warn | cumulIgnoredHistorical | statsNeedsFocusYear | rollingIgnoredStatistics
deriving DecidableEq, Repr

/-- Engine state relevant to `add_series`, fixed at construction. -/
structure Config where
  mode : Mode
  focusYear : Option Int
  startMonth : Option Nat
  cumul : Bool
deriving DecidableEq, Repr

/-- Line 132: `start_month` is kept only when it is greater than 1. -/
def smNorm (startMonth : Option Nat) : Option Nat :=
  match startMonth with
  | some m => if 1 < m then some m else none
  | none => none

/-- `__init__` (lines 125-147): `cumul` in historical mode is dropped with a
warning (lines 137-139, checked against the mode as passed); `statistics`
without a focus year is downgraded to `historical` with a warning
(lines 141-143). -/
def initConfig (mode : Mode) (focusYear : Option Int) (startMonth : Option Nat)
    (cumul : Bool) : Config × List Warn :=
  let sm := smNorm startMonth
  let cw : Bool × List Warn :=
    if cumul && mode == .historical then (false, [Warn.cumulIgnoredHistorical])
    else (cumul, [])
  let mw : Mode × List Warn :=
    if mode == .statistics && focusYear == none then
      (Mode.historical, [Warn.statsNeedsFocusYear])
    else (mode, [])
  ({ mode := mw.1, focusYear := focusYear, startMonth := sm, cumul := cw.1 },
   cw.2 ++ mw.2)

/-! ## Cumulative transform (`add_series` lines 326-337) -/

/-- The per-frequency sort column of the cumulative transform. -/
def cumKey (freq : Option Freq) (r : Row) : Nat :=
  match freq with
  | some .W => r.week
  | some .ME => r.month
  | _ => r.doy

/-- Lines 326-337: in annual-cycle and statistics modes only, each value of a row
becomes the running sum of its values of its fiscal year in sort-column order
(pandas aligns the cumsum back onto the original index). -/
def cumulStep (cumul : Bool) (mode : Mode) (freq : Option Freq) (rows : List Row) :
    List Row :=
  if cumul && (mode == .annualCycle || mode == .statistics) then
    (withIdx 0 rows).map (fun p =>
      let r := p.2
      { r with value := r.value.map (fun _ =>
          (((withIdx 0 rows).filter (fun q =>
              q.2.year == r.year &&
              (decide (cumKey freq q.2 < cumKey freq r) ||
               (cumKey freq q.2 == cumKey freq r && decide (q.1 ≤ p.1))))).filterMap
            (fun q => q.2.value)).foldl (· + ·) 0) })
  else rows

/-! ## Rolling multi-year averager (`add_series` lines 339-388) -/

/-- `sorted` distinct values of the year column (line 340). -/
def fiscalYearsOf (rows : List Row) : List Int :=
  isortStable (fun a b => decide (a ≤ b)) (uniqFirstGo [] (rows.map (fun r => r.year)))

/-- Per-window averaging (lines 349-384) for one window start `s`: the rows
with `fiscal_year ∈ [s, s + w)` grouped by the bucket of the frequency, with the
mean value and first time per bucket, relabelled `year := s`.  The pandas
frame has only the grouped bucket column; the other bucket columns are
recorded as 0. -/
def blockAvg (f : Freq) (w : Nat) (s : Int) (rows : List Row) : List Row :=
  let block := rows.filter (fun r => decide (s ≤ r.year) && decide (r.year < s + (w : Int)))
  match f with
  | .D => (keysNat (block.map (fun r => r.doy))).map (fun k =>
      let g := block.filter (fun r => r.doy == k)
      { date := (g.headD default).date, value := meanOpt (g.map (fun r => r.value)),
        year := s, doy := k, week := 0, month := 0 })
  | .W => (keysNat (block.map (fun r => r.week))).map (fun k =>
      let g := block.filter (fun r => r.week == k)
      { date := (g.headD default).date, value := meanOpt (g.map (fun r => r.value)),
        year := s, doy := 0, week := k, month := 0 })
  | .ME => (keysNat (block.map (fun r => r.month))).map (fun k =>
      let g := block.filter (fun r => r.month == k)
      { date := (g.headD default).date, value := meanOpt (g.map (fun r => r.value)),
        year := s, doy := 0, week := 0, month := k })

/-- Lines 339-388 with a window present.  `unique_years[-w]` raises
`IndexError` when there are fewer distinct years than the window (in Python
`-0` reads index 0, which raises only on an empty list); window starts run
over the sorted years until `max_start_year`; inside the first iteration, a
frequency outside `{D, W, ME}` leaves `result_df` unassigned and
raises. -/
def rollingRun (w : Nat) (freq : Option Freq) (rows : List Row) :
    Except PyErr (List Row) :=
  let years := fiscalYearsOf rows
  if years.isEmpty then .error .indexError
  else if w ≠ 0 && decide (years.length < w) then .error .indexError
  else
    let maxStart := years.getD (if w = 0 then 0 else years.length - w) 0
    let starts := years.takeWhile (fun y => decide (y ≤ maxStart))
    match freq with
    | none => .error .unboundLocal
    | some f => .ok (catMaps starts (fun s => blockAvg f w s rows))

/-- The rolling branch (lines 339-388): skipped when no window is set. -/
def rollingStep (rolling : Option Nat) (freq : Option Freq) (rows : List Row) :
    Except PyErr (List Row) :=
  match rolling with
  | none => .ok rows
  | some w => rollingRun w freq rows

/-! ## Statistics table (`add_series` lines 443-485) -/

/-- The boolean order used to sort values for quantile computation. -/
def ratLe (a b : ℚ) : Bool := decide (a ≤ b)

/-- Ascending sort of the values of a column. -/
def sortRat (l : List ℚ) : List ℚ :=
  isortStable ratLe l

/-- Index of the lower interpolation point of pandas `quantile(p)`:
`⌊p * (n - 1)⌋` on a column of `n` sorted values. -/
def qIdx (s : List ℚ) (p : ℚ) : Nat :=
  Nat.min (Int.toNat ⌊p * ((s.length - 1 : Nat) : ℚ)⌋) (s.length - 1)

/-- pandas `Series.quantile(p)` with the default linear interpolation, on an
already sorted column `s` of length `n`: with `h = p * (n - 1)` and
`i = ⌊h⌋`, the result is `s[i] + (h - i) * (s[i+1] - s[i])`. -/
def quantileCore (s : List ℚ) (p : ℚ) : ℚ :=
  if s.length = 0 then 0
  else
    s.getD (qIdx s p) 0 +
      (p * ((s.length - 1 : Nat) : ℚ) - ((qIdx s p : Nat) : ℚ)) *
        (s.getD (qIdx s p + 1) (s.getD (qIdx s p) 0) - s.getD (qIdx s p) 0)

/-- Empirical quantile with linear interpolation (pandas default). -/
def quantileQ (xs : List ℚ) (p : ℚ) : ℚ :=
  quantileCore (sortRat xs) p

/-- One row of the statistics output table (`stats_quantiles` merged with the
focus-year means, lines 453-485). -/
structure StatRow where
  bucket : Nat
  vmin : ℚ
  q01 : ℚ
  q05 : ℚ
  q10 : ℚ
  q25 : ℚ
  q75 : ℚ
  q90 : ℚ
  q95 : ℚ
  q99 : ℚ
  vmax : ℚ
  median : ℚ
  mean : Option ℚ
  focus : Option ℚ
deriving DecidableEq, Repr, Inhabited

/-- The bucket column used by the statistics and annual-cycle projections. -/
def bucketOf (freq : Option Freq) (r : Row) : Nat :=
  match freq with
  | some .W => r.week
  | some .ME => r.month
  | _ => r.doy

/-- One bucket of the statistics table: all quantile columns of lines
453-461, plus the mean, the median (the linearly interpolated 0.5-quantile)
and the left-joined focus value. -/
def mkStatRow (k : Nat) (vals : List ℚ) (mean focus : Option ℚ) : StatRow :=
  { bucket := k
    vmin := quantileQ vals 0
    q01 := quantileQ vals (1 / 100)
    q05 := quantileQ vals (5 / 100)
    q10 := quantileQ vals (10 / 100)
    q25 := quantileQ vals (25 / 100)
    q75 := quantileQ vals (75 / 100)
    q90 := quantileQ vals (90 / 100)
    q95 := quantileQ vals (95 / 100)
    q99 := quantileQ vals (99 / 100)
    vmax := quantileQ vals 1
    median := quantileQ vals (1 / 2)
    mean := mean
    focus := focus }

/-- Lines 443-485: split off the focus year, compute the quantile columns,
the mean and the median (pandas `median` is the linearly interpolated
0.5-quantile) per bucket over the remaining rows, and left-join the focus
per-bucket mean of the focus year. -/
def statsTable (rows : List Row) (focus : Option Int) (freq : Option Freq) :
    List StatRow :=
  let sPart : List Row :=
    match focus with
    | some fy => rows.filter (fun r => !(r.year == fy))
    | none => rows
  let fPart : List Row :=
    match focus with
    | some fy => rows.filter (fun r => r.year == fy)
    | none => []
  (keysNat (sPart.map (bucketOf freq))).map (fun k =>
    let vals := ((sPart.filter (fun r => bucketOf freq r == k)).map
      (fun r => r.value)).filterMap id
    let fg := (fPart.filter (fun r => bucketOf freq r == k)).map (fun r => r.value)
    mkStatRow k vals
      (meanOpt ((sPart.filter (fun r => bucketOf freq r == k)).map
        (fun r => r.value)))
      (if fg.isEmpty then none else meanOpt fg))

/-! ## Mode projection and `add_series` (lines 149-502) -/

/-- The payload each appended series carries, by mode. -/
inductive SData
  | hist (rows : List Row)
  | cycle (year : Int) (points : List (Nat × Option ℚ))
  | stats (table : List StatRow)
deriving DecidableEq, Repr

/-- One entry of `self.series_list`. -/
structure Series where
  legend : String
  data : SData
deriving DecidableEq, Repr

deriving instance DecidableEq for Except

/-- The call parameters of `add_series`. -/
structure Params where
  legend : Option String
  varName : String
  yearMin : Option Nat
  yearMax : Option Nat
  freq : Option Freq
  rolling : Option Nat
deriving DecidableEq, Repr

/-- Year filtering (lines 210-213). -/
def yearFilter (yMin yMax : Option Nat) (rows : List (Date × ℚ)) :
    List (Date × ℚ) :=
  let r1 := match yMin with
            | some a => rows.filter (fun r => decide (a ≤ r.1.y))
            | none => rows
  match yMax with
  | some b => r1.filter (fun r => decide (r.1.y ≤ b))
  | none => r1

/-- `legend_name or str(var_col)` (line 399). -/
def legendOf (p : Params) : String :=
  p.legend.getD p.varName

/-- Annual-cycle legend (lines 419-422): a rolling series is labelled
`"{start}-{start + w - 1}"`, otherwise `"Year {year}"`. -/
def cycleLegend (rolling : Option Nat) (y : Int) : String :=
  match rolling with
  | some w => toString y ++ "-" ++ toString (y + (w : Int) - 1)
  | none => "Year " ++ toString y

/-- Mode projection (lines 390-498): the list of series appended to
`self.series_list` by this call. -/
def project (cfg : Config) (p : Params) (rolling : Option Nat) (rows : List Row) :
    List Series :=
  match cfg.mode with
  | .historical => [{ legend := legendOf p, data := SData.hist rows }]
  | .annualCycle =>
      let grouped := (keysIN (rows.map (fun r => (r.year, bucketOf p.freq r)))).map
        (fun k => (k.1, k.2, meanOpt ((rows.filter (fun r =>
          r.year == k.1 && bucketOf p.freq r == k.2)).map (fun r => r.value))))
      let yrs := uniqFirstGo [] (grouped.map (fun g => g.1))
      yrs.map (fun y =>
        { legend := cycleLegend rolling y,
          data := SData.cycle y ((grouped.filter (fun g => g.1 == y)).map
            (fun g => (g.2.1, g.2.2))) })
  | .statistics =>
      [{ legend := legendOf p,
         data := SData.stats (statsTable rows cfg.focusYear p.freq) }]

/-- The pipeline up to (not including) the rolling averager: year filter,
gap fill, normalize, resample, cumulative transform. -/
def preRolling (cfg : Config) (rows : List (Date × ℚ)) (p : Params) :
    Except PyErr (List Row) :=
  match normalize cfg.startMonth (gapFill (yearFilter p.yearMin p.yearMax rows)) with
  | .error e => .error e
  | .ok base => .ok (cumulStep cfg.cumul cfg.mode p.freq (resample p.freq base))

/-- `add_series` (lines 149-502), returning the series this call appends to
`self.series_list`, or the Python exception it raises.  In statistics mode a
requested rolling window is dropped with a warning (lines 206-208). -/
def addSeries (cfg : Config) (rows : List (Date × ℚ)) (p : Params) :
    Except PyErr (List Series) :=
  let rolling := if cfg.mode == .statistics then none else p.rolling
  match preRolling cfg rows p with
  | .error e => .error e
  | .ok mid =>
      match rollingStep rolling p.freq mid with
      | .error e => .error e
      | .ok rows6 => .ok (project cfg p rolling rows6)

/-- Extract the rows of an `ok` result (empty on error). -/
def okRows (e : Except PyErr (List Row)) : List Row :=
  match e with
  | .ok l => l
  | .error _ => []

/-! ## Sortedness of the quantile sort and monotonicity of `quantileQ` -/

theorem mem_insertLe (le : α → α → Bool) (x : α) :
    ∀ (l : List α) (z : α), z ∈ insertLe le x l ↔ z = x ∨ z ∈ l := by
  intro l
  induction l with
  | nil => intro z; simp [insertLe]
  | cons y ys ih =>
      intro z
      by_cases h : le y x = true
      · simp only [insertLe]
        rw [if_pos h]
        simp only [List.mem_cons, ih]
        tauto
      · simp only [insertLe]
        rw [if_neg h]
        simp only [List.mem_cons]

theorem pairwise_insertLe (x : ℚ) :
    ∀ (l : List ℚ), l.Pairwise (· ≤ ·) → (insertLe ratLe x l).Pairwise (· ≤ ·) := by
  intro l
  induction l with
  | nil => intro _; simp [insertLe]
  | cons y ys ih =>
      intro h
      rcases List.pairwise_cons.mp h with ⟨hy, hys⟩
      by_cases hle : y ≤ x
      · have heq : insertLe ratLe x (y :: ys) = y :: insertLe ratLe x ys := by
          simp [insertLe, ratLe, hle]
        rw [heq]
        refine List.pairwise_cons.mpr ⟨?_, ih hys⟩
        intro z hz
        rcases (mem_insertLe ratLe x ys z).mp hz with rfl | hzys
        · exact hle
        · exact hy z hzys
      · have heq : insertLe ratLe x (y :: ys) = x :: y :: ys := by
          simp [insertLe, ratLe, hle]
        rw [heq]
        have hxy : x ≤ y := le_of_not_le hle
        refine List.pairwise_cons.mpr ⟨?_, h⟩
        intro z hz
        rcases List.mem_cons.mp hz with rfl | hzys
        · exact hxy
        · exact hxy.trans (hy z hzys)

theorem pairwise_isort_aux :
    ∀ (l acc : List ℚ), acc.Pairwise (· ≤ ·) →
      (l.foldl (fun acc x => insertLe ratLe x acc) acc).Pairwise (· ≤ ·) := by
  intro l
  induction l with
  | nil => intro acc h; simpa using h
  | cons x xs ih => intro acc h; exact ih _ (pairwise_insertLe x acc h)

theorem pairwise_sortRat (l : List ℚ) : (sortRat l).Pairwise (· ≤ ·) :=
  pairwise_isort_aux l [] List.Pairwise.nil

theorem getD_of_len_le (l : List ℚ) (d : ℚ) (n : Nat) (h : l.length ≤ n) :
    l.getD n d = d := by
  simp [List.getD_eq_getElem?_getD, List.getElem?_eq_none h]

theorem sorted_getD_mono (s : List ℚ) (hs : s.Pairwise (· ≤ ·)) {i j : Nat}
    (hij : i ≤ j) (hj : j < s.length) (d1 d2 : ℚ) : s.getD i d1 ≤ s.getD j d2 := by
  have hi : i < s.length := Nat.lt_of_le_of_lt hij hj
  rw [List.getD_eq_getElem s d1 hi, List.getD_eq_getElem s d2 hj]
  rcases Nat.lt_or_ge i j with hlt | hge
  · exact List.pairwise_iff_getElem.mp hs i j hi hj hlt
  · have hijeq : i = j := Nat.le_antisymm hij hge
    subst hijeq
    exact le_refl _

theorem quantileCore_mono (s : List ℚ) (hs : s.Pairwise (· ≤ ·)) (p q : ℚ)
    (hp : 0 ≤ p) (hpq : p ≤ q) (hq : q ≤ 1) :
    quantileCore s p ≤ quantileCore s q := by
  unfold quantileCore
  by_cases h0 : s.length = 0
  · simp [h0]
  · rw [if_neg h0, if_neg h0]
    have hb : ∀ i : Nat, s.getD i 0 ≤ s.getD (i + 1) (s.getD i 0) := by
      intro i
      by_cases hlt : i + 1 < s.length
      · exact sorted_getD_mono s hs (Nat.le_succ i) hlt 0 _
      · rw [getD_of_len_le s _ _ (Nat.le_of_not_lt hlt)]
    set m : Nat := s.length - 1 with hmdef
    have hmlt : m < s.length := Nat.sub_lt (Nat.pos_of_ne_zero h0) Nat.one_pos
    have hm0 : (0 : ℚ) ≤ (m : ℚ) := Nat.cast_nonneg m
    have h0p : (0 : ℚ) ≤ p * (m : ℚ) := mul_nonneg hp hm0
    have hpm : p * (m : ℚ) ≤ q * (m : ℚ) := mul_le_mul_of_nonneg_right hpq hm0
    have hqm : q * (m : ℚ) ≤ (m : ℚ) := by
      calc q * (m : ℚ) ≤ 1 * (m : ℚ) := mul_le_mul_of_nonneg_right hq hm0
        _ = (m : ℚ) := one_mul _
    have hfp0 : 0 ≤ ⌊p * (m : ℚ)⌋ := Int.floor_nonneg.mpr h0p
    have hfq0 : 0 ≤ ⌊q * (m : ℚ)⌋ := Int.floor_nonneg.mpr (le_trans h0p hpm)
    have hfpq : ⌊p * (m : ℚ)⌋ ≤ ⌊q * (m : ℚ)⌋ := Int.floor_le_floor hpm
    have hfqm : ⌊q * (m : ℚ)⌋ ≤ (m : Int) := by
      have := Int.floor_le_floor hqm
      rwa [Int.floor_natCast] at this
    have hfpm : ⌊p * (m : ℚ)⌋ ≤ (m : Int) := le_trans hfpq hfqm
    have hiqm : Int.toNat ⌊q * (m : ℚ)⌋ ≤ m := Int.toNat_le.mpr hfqm
    have hipm : Int.toNat ⌊p * (m : ℚ)⌋ ≤ m := Int.toNat_le.mpr hfpm
    have hidp : qIdx s p = Int.toNat ⌊p * (m : ℚ)⌋ := by
      unfold qIdx
      rw [← hmdef]
      exact Nat.min_eq_left hipm
    have hidq : qIdx s q = Int.toNat ⌊q * (m : ℚ)⌋ := by
      unfold qIdx
      rw [← hmdef]
      exact Nat.min_eq_left hiqm
    have hcastp : ((qIdx s p : Nat) : ℚ) = ((⌊p * (m : ℚ)⌋ : Int) : ℚ) := by
      rw [hidp]
      exact_mod_cast congrArg (fun z : Int => (z : ℚ)) (Int.toNat_of_nonneg hfp0)
    have hcastq : ((qIdx s q : Nat) : ℚ) = ((⌊q * (m : ℚ)⌋ : Int) : ℚ) := by
      rw [hidq]
      exact_mod_cast congrArg (fun z : Int => (z : ℚ)) (Int.toNat_of_nonneg hfq0)
    have hgp0 : 0 ≤ p * (m : ℚ) - ((qIdx s p : Nat) : ℚ) := by
      rw [hcastp]
      have := Int.floor_le (p * (m : ℚ))
      linarith
    have hgp1 : p * (m : ℚ) - ((qIdx s p : Nat) : ℚ) < 1 := by
      rw [hcastp]
      have := Int.lt_floor_add_one (p * (m : ℚ))
      push_cast at this ⊢
      linarith
    have hgq0 : 0 ≤ q * (m : ℚ) - ((qIdx s q : Nat) : ℚ) := by
      rw [hcastq]
      have := Int.floor_le (q * (m : ℚ))
      linarith
    rcases Nat.lt_or_ge (qIdx s p) (qIdx s q) with hlt | hge
    · -- distinct lower indices: chain through s[ip+1] ≤ s[iq]
      have hiq_lt : qIdx s q < s.length := Nat.lt_of_le_of_lt (by rw [hidq]; exact hiqm) hmlt
      have hsucc_le : qIdx s p + 1 ≤ qIdx s q := hlt
      have hstep1 :
          s.getD (qIdx s p) 0 +
              (p * (m : ℚ) - ((qIdx s p : Nat) : ℚ)) *
                (s.getD (qIdx s p + 1) (s.getD (qIdx s p) 0) - s.getD (qIdx s p) 0) ≤
            s.getD (qIdx s p + 1) (s.getD (qIdx s p) 0) := by
        have hba := hb (qIdx s p)
        nlinarith [hba, hgp0, hgp1]
      have hstep2 :
          s.getD (qIdx s p + 1) (s.getD (qIdx s p) 0) ≤ s.getD (qIdx s q) 0 :=
        sorted_getD_mono s hs hsucc_le hiq_lt _ 0
      have hstep3 :
          s.getD (qIdx s q) 0 ≤
            s.getD (qIdx s q) 0 +
              (q * (m : ℚ) - ((qIdx s q : Nat) : ℚ)) *
                (s.getD (qIdx s q + 1) (s.getD (qIdx s q) 0) - s.getD (qIdx s q) 0) := by
        have hba := hb (qIdx s q)
        nlinarith [hba, hgq0]
      exact le_trans hstep1 (le_trans hstep2 hstep3)
    · -- equal lower indices (≥ together with floor monotonicity forces equality)
      have hle2 : qIdx s p ≤ qIdx s q := by
        rw [hidp, hidq]
        exact Int.toNat_le_toNat hfpq
      have heqi : qIdx s p = qIdx s q := Nat.le_antisymm hle2 hge
      rw [← heqi]
      have hba := hb (qIdx s p)
      have hsub : p * (m : ℚ) - ((qIdx s p : Nat) : ℚ) ≤
          q * (m : ℚ) - ((qIdx s p : Nat) : ℚ) := by linarith
      nlinarith [hba, hsub]

theorem quantileQ_mono (xs : List ℚ) (p q : ℚ) (hp : 0 ≤ p) (hpq : p ≤ q)
    (hq : q ≤ 1) : quantileQ xs p ≤ quantileQ xs q :=
  quantileCore_mono (sortRat xs) (pairwise_sortRat xs) p q hp hpq hq

/-! ## Structural lemmas about the pipeline -/

/-- In historical mode the cumulative transform is a no-op (lines 326-327
guard on the mode), whatever the `cumul` flag says. -/
theorem cumulStep_historical (c : Bool) (freq : Option Freq) (rows : List Row) :
    cumulStep c Mode.historical freq rows = rows := by
  simp [cumulStep]

/-- If the rolling branch returns normally, the frequency was one of
`D`/`W`/`ME` and `unique_years[-w]` was a valid index. -/
theorem rollingRun_ok {w : Nat} {freq : Option Freq} {rows out : List Row}
    (h : rollingRun w freq rows = .ok out) :
    (freq = some Freq.D ∨ freq = some Freq.W ∨ freq = some Freq.ME) ∧
      fiscalYearsOf rows ≠ [] ∧ (w = 0 ∨ w ≤ (fiscalYearsOf rows).length) := by
  simp only [rollingRun] at h
  by_cases h1 : (fiscalYearsOf rows).isEmpty = true
  · rw [if_pos h1] at h
    cases h
  · rw [if_neg h1] at h
    by_cases h2 : (decide (w ≠ 0) && decide ((fiscalYearsOf rows).length < w)) = true
    · rw [if_pos h2] at h
      cases h
    · rw [if_neg h2] at h
      have hne : fiscalYearsOf rows ≠ [] := by
        intro hc
        exact h1 (by simp [hc])
      have hw : w = 0 ∨ w ≤ (fiscalYearsOf rows).length := by
        rcases Nat.eq_zero_or_pos w with h0 | hpos
        · exact Or.inl h0
        · right
          by_contra hlt
          exact h2 (by
            simp only [Bool.and_eq_true, decide_eq_true_eq]
            exact ⟨Nat.pos_iff_ne_zero.mp hpos, Nat.lt_of_not_le hlt⟩)
      cases hf : freq with
      | none =>
          rw [hf] at h
          cases h
      | some f =>
          refine ⟨?_, hne, hw⟩
          cases f
          · exact Or.inl rfl
          · exact Or.inr (Or.inl rfl)
          · exact Or.inr (Or.inr rfl)

/-- No row of the base normalizer carries the date Feb 29 (line 256). -/
theorem normalizeBase_no_feb29 (rows : List (Date × Option ℚ)) (r : Row)
    (hr : r ∈ normalizeBase rows) : ¬ (r.date.m = 2 ∧ r.date.d = 29) := by
  unfold normalizeBase at hr
  rcases List.mem_map.mp hr with ⟨x, hx, rfl⟩
  have hflt := (List.mem_filter.mp hx).2
  intro hc
  have h2 : x.1.m = 2 := hc.1
  have h29 : x.1.d = 29 := hc.2
  rw [h2, h29] at hflt
  simp at hflt

/-! ## Concrete inputs used by the claim instances -/

/-- A complete year (its first observed date is Jan 1 and its last is
Dec 31) in which June 15 is missing while both of its calendar neighbours
are observed. -/
def exC1hole : List (Date × ℚ) :=
  [(⟨2001, 1, 1⟩, 1), (⟨2001, 6, 14⟩, 10), (⟨2001, 6, 16⟩, 20), (⟨2001, 12, 31⟩, 4)]

/-- 2001 complete (first and last day observed), 2002 incomplete with a
single observed day outside the complete span. -/
def exC1drop : List (Date × ℚ) :=
  [(⟨2001, 1, 1⟩, 0), (⟨2001, 12, 31⟩, 10), (⟨2002, 1, 2⟩, 99)]

/-- 2001 and 2003 complete, 2002 incomplete but inside the complete span. -/
def exC1mid : List (Date × ℚ) :=
  [(⟨2001, 1, 1⟩, 0), (⟨2001, 12, 31⟩, 10), (⟨2002, 6, 15⟩, 99),
   (⟨2003, 1, 1⟩, 20), (⟨2003, 12, 31⟩, 30)]

/-- Every day of the non-leap year 2003. -/
def exYr2003 : List (Date × Option ℚ) :=
  (daysOfYear 2003).map (fun d => (d, some 1))

/-- Every day of the leap year 2004. -/
def exYr2004 : List (Date × Option ℚ) :=
  (daysOfYear 2004).map (fun d => (d, some 1))

/-- Sparse observations spanning 2016 and 2017 (no complete year, so the
gap filler passes them through), including the two dates of the fiscal-shift
test. -/
def exC3 : List (Date × Option ℚ) :=
  [(⟨2016, 1, 5⟩, some 1), (⟨2016, 10, 1⟩, some 1), (⟨2016, 10, 5⟩, some 1),
   (⟨2017, 1, 15⟩, some 1), (⟨2017, 9, 30⟩, some 1), (⟨2017, 12, 30⟩, some 1)]

/-- Fiscal years 2000..2010, three January days each, value
`(year - 2000) * 100 + day`. -/
def exC4 : List (Date × ℚ) :=
  catMaps ((List.range 11).map (fun i => 2000 + i)) (fun y =>
    [(⟨y, 1, 1⟩, ((y : ℚ) - 2000) * 100 + 1), (⟨y, 1, 2⟩, ((y : ℚ) - 2000) * 100 + 2),
     (⟨y, 1, 3⟩, ((y : ℚ) - 2000) * 100 + 3)])

/-- Annual-cycle engine with default calendar. -/
def cfgC4 : Config := (initConfig .annualCycle none none false).1

/-- `add_series` parameters: daily frequency, rolling window 5. -/
def pC4 : Params :=
  { legend := none, varName := "v", yearMin := none, yearMax := none,
    freq := some .D, rolling := some 5 }

/-- Historical engine with default calendar. -/
def cfgH : Config := (initConfig .historical none none false).1

/-- Default `add_series` parameters. -/
def pPlain : Params :=
  { legend := none, varName := "v", yearMin := none, yearMax := none,
    freq := none, rolling := none }

/-- Default parameters with `year_min = 2010`. -/
def pYm2010 : Params := { pPlain with yearMin := some 2010 }

/-- Historical engine with fiscal start month 10. -/
def cfgH10 : Config := (initConfig .historical none (some 10) false).1

/-- Data covering only Jan-Sep 2005: no row falls inside the custom
fiscal-year window, which runs from 2005-10-01 to 2005-09-30. -/
def exC8win : List (Date × ℚ) :=
  [(⟨2005, 1, 10⟩, 1), (⟨2005, 3, 3⟩, 2), (⟨2005, 9, 30⟩, 3)]

/-- The week pattern of a complete fiscal year: weeks 1..51 with seven days
each, week 52 with eight. -/
def weeks365 : List Nat :=
  catMaps ((List.range 52).map (· + 1))
    (fun w => List.replicate (if w == 52 then 8 else 7) w)

/-- Two observed days in two distinct years. -/
def exC9 : List (Date × ℚ) := [(⟨2000, 1, 1⟩, 1), (⟨2001, 5, 5⟩, 2)]

/-- Rolling window 2 with the default (`None`) frequency. -/
def pC9none : Params := { pPlain with rolling := some 2 }

/-- Rolling window 5 (more than the distinct years) at daily frequency. -/
def pC9d5 : Params := { pPlain with freq := some .D, rolling := some 5 }

/-- Rolling window 2 at daily frequency (a succeeding call). -/
def pC9d2 : Params := { pPlain with freq := some .D, rolling := some 2 }

/-! ## Claim C1 -/

/-- C1 is false as stated: in `exC1drop` the fiscal year 2002 is incomplete
(its single observed day is 2002-01-02), yet it is not passed through
unmodified — the join onto the complete-year index `2001-01-01..2001-12-31`
drops its row entirely, so the output contains no 2002 row at all. -/
theorem claim1_counterexample :
    (exC1drop.filter (fun r => r.1.y == 2002)).length = 1 ∧
      ((gapFill exC1drop).filter (fun r => r.1.y == 2002)).length = 0 := by
  constructor
  · decide
  · decide

/-- C1 amended: gap filling is keyed on the complete-year span, not on each
year separately.  (i) When no calendar year is complete the whole input is
passed through unmodified.  (ii) Inside a complete fiscal year, a missing
interior day whose two calendar neighbours are observed receives exactly
their linear interpolation (2001-06-15 gets `(10 + 20) / 2 = 15` from its
neighbours).  (iii) An incomplete year lying inside the complete span is not
passed through: all 365 of its days are materialised and none of its values
is left missing after interpolation. -/
theorem claim1_theorem :
    (∀ rows : List (Date × ℚ), completeYears rows = [] →
        gapFill rows = rows.map (fun r => (r.1, some r.2))) ∧
      ((gapFill exC1hole).filter
          (fun r => r.1.m == 6 && (13 < r.1.d && r.1.d < 17)))
        = [(⟨2001, 6, 14⟩, some 10), (⟨2001, 6, 15⟩, some 15),
           (⟨2001, 6, 16⟩, some 20)] ∧
      ((10 : ℚ) + 20) / 2 = 15 ∧
      ((gapFill exC1mid).filter (fun r => r.1.y == 2002)).map
          (fun r => r.2 == none) = List.replicate 365 false := by
  refine ⟨?_, by with_unfolding_all decide, by norm_num, by decide⟩
  intro rows h
  simp [gapFill, h]

/-- Witness for the universally quantified part of the amended C1. -/
theorem claim1_witness :
    gapFill [(⟨2001, 2, 3⟩, (5 : ℚ))] = [(⟨2001, 2, 3⟩, some 5)] :=
  claim1_theorem.1 [(⟨2001, 2, 3⟩, (5 : ℚ))] (by decide)

/-! ## Claim C2 -/

/-- C2 is false as stated: with the single observed day 2001-03-05 no year
is complete, the row passes through, and fiscal year 2001 appears in the
normalized output with exactly one distinct day-of-year value, not 365. -/
theorem claim2_counterexample :
    ((normalizeBase (gapFill [(⟨2001, 3, 5⟩, 1)])).map (fun r => r.year)).dedup
        = [(2001 : Int)] ∧
      (((normalizeBase (gapFill [(⟨2001, 3, 5⟩, 1)])).filter
          (fun r => r.year == 2001)).map (fun r => r.doy)).dedup.length = 1 := by
  constructor
  · decide
  · decide

/-- C2 amended: no emitted row ever has calendar month 2 and day 29 (proved
for every input), and in a leap year the day-of-year of dates after Feb 28
is decremented by 1 (2004-03-01 has raw ordinal 61 and normalized ordinal
60); the 365-distinct-day-of-year property holds for complete fiscal years
(verified on the full non-leap year 2003 and the full leap year 2004, whose
366 input days shrink to 365 output rows), but not for incomplete
pass-through years. -/
theorem claim2_theorem :
    (∀ (rows : List (Date × Option ℚ)) (r : Row), r ∈ normalizeBase rows →
        ¬ (r.date.m = 2 ∧ r.date.d = 29)) ∧
      ((normalizeBase exYr2003).map (fun r => r.doy)).dedup.length = 365 ∧
      ((normalizeBase exYr2004).map (fun r => r.doy)).dedup.length = 365 ∧
      exYr2004.length = 366 ∧
      (normalizeBase exYr2004).length = 365 ∧
      dayOfYear ⟨2004, 3, 1⟩ = 61 ∧
      ((normalizeBase exYr2004).filter (fun r => r.date == (⟨2004, 3, 1⟩ : Date))).map
          (fun r => r.doy) = [60] := by
  have hinj : Function.Injective (fun n : Nat => n + 1) := fun a b h => by
    simpa using h
  have hnodup : ((List.range 365).map (· + 1)).Nodup :=
    List.Nodup.map hinj (List.nodup_range 365)
  have h3 : (normalizeBase exYr2003).map (fun r => r.doy)
      = (List.range 365).map (· + 1) := by decide
  have h4 : (normalizeBase exYr2004).map (fun r => r.doy)
      = (List.range 365).map (· + 1) := by decide
  refine ⟨normalizeBase_no_feb29, ?_, ?_, by decide, ?_, by decide, by decide⟩
  · rw [h3, List.dedup_eq_self.mpr hnodup]
    simp
  · rw [h4, List.dedup_eq_self.mpr hnodup]
    simp
  · have hlen := congrArg List.length h4
    simpa using hlen

/-- Witness for the universally quantified part of the amended C2. -/
theorem claim2_witness :
    ¬ ((({ date := ⟨2004, 3, 1⟩, value := some 1, year := 2004, doy := 60,
           week := 9, month := 3 } : Row)).date.m = 2 ∧
        (({ date := ⟨2004, 3, 1⟩, value := some 1, year := 2004, doy := 60,
            week := 9, month := 3 } : Row)).date.d = 29) :=
  claim2_theorem.1 [(⟨2004, 3, 1⟩, some 1)] _ (by decide)

/-! ## Claim C3 -/

/-- C3: with start month 10, the normalizer run on the full 2016-2017 daily
data assigns fiscal year 2017 both to 2017-01-15 and to 2016-10-05; and in
general the reassignment of lines 283-286 decrements the year of months
before the start month when the start month is at most 6, and increments
the year of months at or after the start month when it is above 6. -/
theorem claim3_theorem :
    ((okRows (normalize (some 10) exC3)).filter
        (fun r => r.date == (⟨2017, 1, 15⟩ : Date))).map (fun r => r.year)
        = [(2017 : Int)] ∧
      ((okRows (normalize (some 10) exC3)).filter
        (fun r => r.date == (⟨2016, 10, 5⟩ : Date))).map (fun r => r.year)
        = [(2017 : Int)] ∧
      (∀ (m mo : Nat) (y : Int),
        (m ≤ 6 → mo < m → fiscalShift m mo y = y - 1) ∧
        (m ≤ 6 → ¬ mo < m → fiscalShift m mo y = y) ∧
        (¬ m ≤ 6 → m ≤ mo → fiscalShift m mo y = y + 1) ∧
        (¬ m ≤ 6 → ¬ m ≤ mo → fiscalShift m mo y = y)) := by
  refine ⟨by decide, by decide, ?_⟩
  intro m mo y
  refine ⟨?_, ?_, ?_, ?_⟩ <;> intro h1 h2 <;> simp [fiscalShift, h1, h2]

/-- Witness for the general fiscal-shift part of C3. -/
theorem claim3_witness : fiscalShift 10 10 2016 = 2016 + 1 :=
  ((claim3_theorem.2.2 10 10 2016).2.2.1 (by decide)) (by decide)

/-! ## Claim C4 -/

/-- C4: eleven consecutive fiscal years 2000-2010 with window 5 produce
exactly seven rolling series, with start years 2000..2006, the per-bucket
mean of the five member years, and annual-cycle legends
`"{start}-{start+4}"`.  The input value at `(year, day)` is
`(year - 2000) * 100 + day`, so the window mean at day `d` starting at `s`
is `(s - 2000 + 2) * 100 + d`. -/
theorem claim4_theorem :
    addSeries cfgC4 exC4 pC4 = .ok
      [ { legend := "2000-2004",
          data := SData.cycle 2000 [(1, some 201), (2, some 202), (3, some 203)] },
        { legend := "2001-2005",
          data := SData.cycle 2001 [(1, some 301), (2, some 302), (3, some 303)] },
        { legend := "2002-2006",
          data := SData.cycle 2002 [(1, some 401), (2, some 402), (3, some 403)] },
        { legend := "2003-2007",
          data := SData.cycle 2003 [(1, some 501), (2, some 502), (3, some 503)] },
        { legend := "2004-2008",
          data := SData.cycle 2004 [(1, some 601), (2, some 602), (3, some 603)] },
        { legend := "2005-2009",
          data := SData.cycle 2005 [(1, some 701), (2, some 702), (3, some 703)] },
        { legend := "2006-2010",
          data := SData.cycle 2006 [(1, some 801), (2, some 802), (3, some 803)] } ] := by
  with_unfolding_all decide

/-! ## Claim C5 -/

/-- C5 is false as stated: 2003 is not a leap year, yet its complete fiscal
year puts 8 days (adjusted days 358..365) into week bucket 52 — the claim
allows 8 days only in leap years. -/
theorem claim5_counterexample :
    isLeap 2003 = false ∧
      ((normalizeBase exYr2003).filter (fun r => r.week == 52)).length = 8 := by
  constructor
  · decide
  · decide

/-- C5 amended: `week_num` is `min(((doy - 1) // 7) + 1, 52)` (the lower
clamp of the claim is vacuous since the raw value is already at least 1),
every emitted week lies in `1..52`, a complete fiscal year covers exactly
the weeks `1..52` — seven days in each of weeks 1..51 — and bucket 52
contains exactly 8 days for every complete fiscal year, leap and non-leap
alike. -/
theorem claim5_theorem :
    (∀ n : Nat, weekOf n = Nat.min ((n - 1) / 7 + 1) 52 ∧ 1 ≤ (n - 1) / 7 + 1) ∧
      (∀ (rows : List (Date × Option ℚ)) (r : Row), r ∈ normalizeBase rows →
          1 ≤ r.week ∧ r.week ≤ 52) ∧
      (normalizeBase exYr2003).map (fun r => r.week) = weeks365 ∧
      (normalizeBase exYr2004).map (fun r => r.week) = weeks365 ∧
      ((List.range 52).map (· + 1)).all (fun w => weeks365.contains w) = true ∧
      weeks365.all (fun w => ((List.range 52).map (· + 1)).contains w) = true ∧
      ((normalizeBase exYr2003).filter (fun r => r.week == 52)).length = 8 ∧
      ((normalizeBase exYr2004).filter (fun r => r.week == 52)).length = 8 := by
  refine ⟨?_, ?_, by decide, by decide, by decide, by decide, by decide, by decide⟩
  · intro n
    exact ⟨rfl, Nat.le_add_left 1 _⟩
  · intro rows r hr
    unfold normalizeBase at hr
    rcases List.mem_map.mp hr with ⟨x, _, rfl⟩
    constructor
    · show 1 ≤ Nat.min ((rawDoyAdj x.1 - 1) / 7 + 1) 52
      exact le_min (Nat.le_add_left 1 _) (by omega)
    · show Nat.min ((rawDoyAdj x.1 - 1) / 7 + 1) 52 ≤ 52
      exact Nat.min_le_right _ _

/-- Witness for the universally quantified parts of the amended C5. -/
theorem claim5_witness :
    1 ≤ ({ date := ⟨2004, 3, 1⟩, value := some 1, year := 2004, doy := 60,
           week := 9, month := 3 } : Row).week ∧
      ({ date := ⟨2004, 3, 1⟩, value := some 1, year := 2004, doy := 60,
         week := 9, month := 3 } : Row).week ≤ 52 :=
  claim5_theorem.2.1 [(⟨2004, 3, 1⟩, some 1)] _ (by decide)

/-! ## Claim C6 -/

/-- All quantile fields of a statistics bucket are ordered. -/
theorem mkStatRow_chain (k : Nat) (vals : List ℚ) (mean focus : Option ℚ) :
    (mkStatRow k vals mean focus).vmin ≤ (mkStatRow k vals mean focus).q01 ∧
      (mkStatRow k vals mean focus).q01 ≤ (mkStatRow k vals mean focus).q05 ∧
      (mkStatRow k vals mean focus).q05 ≤ (mkStatRow k vals mean focus).q10 ∧
      (mkStatRow k vals mean focus).q10 ≤ (mkStatRow k vals mean focus).q25 ∧
      (mkStatRow k vals mean focus).q25 ≤ (mkStatRow k vals mean focus).median ∧
      (mkStatRow k vals mean focus).median ≤ (mkStatRow k vals mean focus).q75 ∧
      (mkStatRow k vals mean focus).q75 ≤ (mkStatRow k vals mean focus).q90 ∧
      (mkStatRow k vals mean focus).q90 ≤ (mkStatRow k vals mean focus).q95 ∧
      (mkStatRow k vals mean focus).q95 ≤ (mkStatRow k vals mean focus).q99 ∧
      (mkStatRow k vals mean focus).q99 ≤ (mkStatRow k vals mean focus).vmax := by
  unfold mkStatRow
  refine ⟨?_, ?_, ?_, ?_, ?_, ?_, ?_, ?_, ?_, ?_⟩ <;>
    · apply quantileQ_mono <;> norm_num

/-- Three rows in one bucket, one of them belonging to the focus year. -/
def exC6rows : List Row :=
  [ { date := ⟨2000, 1, 1⟩, value := some 1, year := 2000, doy := 1, week := 1, month := 1 },
    { date := ⟨2002, 1, 1⟩, value := some 3, year := 2002, doy := 1, week := 1, month := 1 },
    { date := ⟨2001, 1, 1⟩, value := some 100, year := 2001, doy := 1, week := 1, month := 1 } ]

/-- C6: in every row of the statistics table — whose fields are the
empirical quantiles (and the median) of the non-focus-year values at that
bucket — the chain `min ≤ q01 ≤ q05 ≤ q10 ≤ q25 ≤ median ≤ q75 ≤ q90 ≤ q95
≤ q99 ≤ max` holds. -/
theorem claim6_theorem :
    ∀ (rows : List Row) (focus : Option Int) (freq : Option Freq) (r : StatRow),
      r ∈ statsTable rows focus freq →
      r.vmin ≤ r.q01 ∧ r.q01 ≤ r.q05 ∧ r.q05 ≤ r.q10 ∧ r.q10 ≤ r.q25 ∧
        r.q25 ≤ r.median ∧ r.median ≤ r.q75 ∧ r.q75 ≤ r.q90 ∧ r.q90 ≤ r.q95 ∧
        r.q95 ≤ r.q99 ∧ r.q99 ≤ r.vmax := by
  intro rows focus freq r hr
  unfold statsTable at hr
  rcases List.mem_map.mp hr with ⟨k, _, rfl⟩
  exact mkStatRow_chain _ _ _ _

/-- Witness: the quantile chain at the table built from `exC6rows` with
focus year 2001. -/
theorem claim6_witness :
    ((statsTable exC6rows (some 2001) none).getD 0 default).vmin ≤
        ((statsTable exC6rows (some 2001) none).getD 0 default).q01 ∧
      ((statsTable exC6rows (some 2001) none).getD 0 default).q01 ≤
        ((statsTable exC6rows (some 2001) none).getD 0 default).q05 ∧
      ((statsTable exC6rows (some 2001) none).getD 0 default).q05 ≤
        ((statsTable exC6rows (some 2001) none).getD 0 default).q10 ∧
      ((statsTable exC6rows (some 2001) none).getD 0 default).q10 ≤
        ((statsTable exC6rows (some 2001) none).getD 0 default).q25 ∧
      ((statsTable exC6rows (some 2001) none).getD 0 default).q25 ≤
        ((statsTable exC6rows (some 2001) none).getD 0 default).median ∧
      ((statsTable exC6rows (some 2001) none).getD 0 default).median ≤
        ((statsTable exC6rows (some 2001) none).getD 0 default).q75 ∧
      ((statsTable exC6rows (some 2001) none).getD 0 default).q75 ≤
        ((statsTable exC6rows (some 2001) none).getD 0 default).q90 ∧
      ((statsTable exC6rows (some 2001) none).getD 0 default).q90 ≤
        ((statsTable exC6rows (some 2001) none).getD 0 default).q95 ∧
      ((statsTable exC6rows (some 2001) none).getD 0 default).q95 ≤
        ((statsTable exC6rows (some 2001) none).getD 0 default).q99 ∧
      ((statsTable exC6rows (some 2001) none).getD 0 default).q99 ≤
        ((statsTable exC6rows (some 2001) none).getD 0 default).vmax :=
  claim6_theorem exC6rows (some 2001) none _ (by with_unfolding_all decide)

/-! ## Claim C7 -/

/-- In historical mode the `cumul` flag cannot influence `add_series`
(the cumulative branch is guarded by the mode, lines 326-327). -/
theorem addSeries_cumul_irrelevant_historical (sm : Option Nat) (fy : Option Int)
    (c1 c2 : Bool) (rows : List (Date × ℚ)) (p : Params) :
    addSeries { mode := Mode.historical, focusYear := fy, startMonth := sm, cumul := c1 }
        rows p
      = addSeries { mode := Mode.historical, focusYear := fy, startMonth := sm, cumul := c2 }
        rows p := by
  unfold addSeries preRolling
  dsimp only
  simp only [cumulStep_historical]
  rfl

/-- C7: constructing with statistics mode and no focus year does not
fail — the mode is downgraded to historical mode with a recorded warning, and
every subsequent `add_series` call on any input produces output identical to
a run constructed directly with historical mode and otherwise the same
arguments. -/
theorem claim7_theorem :
    ∀ (sm : Option Nat) (c : Bool) (rows : List (Date × ℚ)) (p : Params),
      (initConfig Mode.statistics none sm c).1.mode = Mode.historical ∧
        Warn.statsNeedsFocusYear ∈ (initConfig Mode.statistics none sm c).2 ∧
        addSeries (initConfig Mode.statistics none sm c).1 rows p
          = addSeries (initConfig Mode.historical none sm c).1 rows p := by
  intro sm c rows p
  refine ⟨rfl, ?_, ?_⟩
  · cases c
    · exact List.Mem.head _
    · exact List.Mem.head _
  · cases c
    · rfl
    · exact addSeries_cumul_irrelevant_historical (smNorm sm) none true false rows p

/-! ## Claim C8 -/

/-- C8 is false as stated: with `year_min = 2010` the single 2005 row is
filtered out, yet `add_series` raises nothing — it returns normally and
appends a series whose table is empty. -/
theorem claim8_counterexample :
    addSeries cfgH [(⟨2005, 3, 3⟩, 1)] pYm2010
      = .ok [ { legend := "v", data := SData.hist [] } ] := by
  decide

/-- C8 amended: `add_series` has no `DataError` path.  An input that is
empty after year filtering is processed to an empty appended series; data
entirely outside the requested custom-fiscal-year window likewise yields an
empty appended series; only the combination of a custom start month with an
empty filtered frame aborts, and it does so with a pandas `Timestamp`
construction error, not a dedicated data error. -/
theorem claim8_theorem :
    addSeries cfgH [(⟨2005, 3, 3⟩, 1)] pYm2010
        = .ok [ { legend := "v", data := SData.hist [] } ] ∧
      addSeries cfgH10 exC8win pPlain
        = .ok [ { legend := "v", data := SData.hist [] } ] ∧
      addSeries cfgH10 [(⟨2005, 3, 3⟩, 1)] pYm2010 = .error PyErr.nanTimestamp := by
  refine ⟨by decide, by decide, by decide⟩

/-! ## Claim C9 -/

/-- The two rows of `exC9` after normalization (no year is complete, so the
input passes through). -/
def mid9 : List Row :=
  [ { date := ⟨2000, 1, 1⟩, value := some 1, year := 2000, doy := 1, week := 1, month := 1 },
    { date := ⟨2001, 5, 5⟩, value := some 2, year := 2001, doy := 125, week := 18, month := 5 } ]

/-- The series appended by the succeeding rolling call on `exC9`. -/
def out9 : List Series :=
  [ { legend := "v",
      data := SData.hist
        [ { date := ⟨2000, 1, 1⟩, value := some 1, year := 2000, doy := 1,
            week := 0, month := 0 },
          { date := ⟨2001, 5, 5⟩, value := some 2, year := 2000, doy := 125,
            week := 0, month := 0 } ] } ]

/-- C9: outside statistics mode, a set rolling window lets `add_series`
return normally only when the frequency is one of `D`/`W`/`ME` and
`unique_years[-w]` is a valid index (for `w ≥ 1`: at least `w` distinct
fiscal years); concretely, the default `freq=None` hits the unassigned
`result_df` and raises, and a window larger than the number of distinct
years raises an `IndexError` — both witnessed on `exC9`. -/
theorem claim9_theorem :
    (∀ (cfg : Config) (rows : List (Date × ℚ)) (p : Params) (w : Nat)
        (mid : List Row) (ser : List Series),
        cfg.mode ≠ Mode.statistics → p.rolling = some w →
        preRolling cfg rows p = .ok mid → addSeries cfg rows p = .ok ser →
        (p.freq = some Freq.D ∨ p.freq = some Freq.W ∨ p.freq = some Freq.ME) ∧
          fiscalYearsOf mid ≠ [] ∧ (w = 0 ∨ w ≤ (fiscalYearsOf mid).length)) ∧
      addSeries cfgH exC9 pC9none = .error PyErr.unboundLocal ∧
      addSeries cfgH exC9 pC9d5 = .error PyErr.indexError := by
  refine ⟨?_, by decide, by decide⟩
  intro cfg rows p w mid ser hmode hroll hmid hok
  have hbeq : (cfg.mode == Mode.statistics) = false := beq_eq_false_iff_ne.mpr hmode
  unfold addSeries at hok
  rw [hmid] at hok
  simp only [hbeq, Bool.false_eq_true, if_false, hroll] at hok
  cases hr : rollingStep (some w) p.freq mid with
  | error e => rw [hr] at hok; cases hok
  | ok rows6 =>
      have := rollingRun_ok (show rollingRun w p.freq mid = .ok rows6 from hr)
      exact this

/-- Witness for the general part of C9, at the succeeding daily rolling
call on `exC9` with window 2. -/
theorem claim9_witness :
    (pC9d2.freq = some Freq.D ∨ pC9d2.freq = some Freq.W ∨ pC9d2.freq = some Freq.ME) ∧
      fiscalYearsOf mid9 ≠ [] ∧ (2 = 0 ∨ 2 ≤ (fiscalYearsOf mid9).length) :=
  claim9_theorem.1 cfgH exC9 pC9d2 2 mid9 out9 (by decide) rfl (by decide)
    (by with_unfolding_all decide)

/-! ## Claim C10: aliasing model of the in-place operations -/

/-- The caller-visible dataframe value. -/
def DFv : Type := List (Date × ℚ)

/-- The aliasing-relevant statement shapes of `add_series`: `copy`
allocates a fresh heap cell, in-place assignments mutate the cell a local
name points to, and pure pandas operations rebind the name to a fresh
cell. -/
inductive AStmt
  | copyDf
  | mutateDf (f : DFv → DFv)
  | rebindDf (f : DFv → DFv)
  | copyAnalysisFromDf
  | mutateAnalysis (f : DFv → DFv)

/-- Heap and environment: `heap` holds the live dataframe objects,
`dfIdx`/`anIdx` are the cells the local names `df` and `df_analysis` point
to, and cell 0 is the object the caller passed in. -/
structure AState where
  heap : List DFv
  dfIdx : Nat
  anIdx : Nat

/-- Small-step semantics of the aliasing statements. -/
def astep (st : AStmt) (s : AState) : AState :=
  match st with
  | .copyDf =>
      { s with heap := s.heap ++ [s.heap.getD s.dfIdx []], dfIdx := s.heap.length }
  | .mutateDf f =>
      { s with heap := s.heap.set s.dfIdx (f (s.heap.getD s.dfIdx [])) }
  | .rebindDf f =>
      { s with heap := s.heap ++ [f (s.heap.getD s.dfIdx [])], dfIdx := s.heap.length }
  | .copyAnalysisFromDf =>
      { s with heap := s.heap ++ [s.heap.getD s.dfIdx []], anIdx := s.heap.length }
  | .mutateAnalysis f =>
      { s with heap := s.heap.set s.anIdx (f (s.heap.getD s.anIdx [])) }

/-- Run a statement list. -/
def runA (prog : List AStmt) (s : AState) : AState :=
  prog.foldl (fun s st => astep st s) s

/-- The statements of `add_series` in source order, classified by aliasing
effect: line 203 `df = df.copy()`; line 204 `df[time_col] = pd.to_datetime(...)`
(in place on the copy); lines 211 and 213 year filters, line 240 `set_index`,
line 241 `join(...).reset_index()` and line 246 `interpolate` (each rebinds
`df` to a fresh frame); line 248 `df_analysis = df.copy()`; lines 250-261 and
288-295 column assignments, sorts and `reset_index(drop=True, inplace=True)`
(in place on `df_analysis`). -/
def addSeriesAliasProg (toDt f1 f2 f3 f4 f5 g1 g2 : DFv → DFv) : List AStmt :=
  [ .copyDf, .mutateDf toDt, .rebindDf f1, .rebindDf f2, .rebindDf f3,
    .rebindDf f4, .rebindDf f5, .copyAnalysisFromDf, .mutateAnalysis g1,
    .mutateAnalysis g2 ]

/-- C10: `add_series` never mutates the dataframe of the caller — whatever the
individual column operations do, after running the statement trace the
heap cell the caller holds still contains exactly the value passed in,
because the in-place operations all target cells allocated by the `copy`
calls of lines 203 and 248. -/
theorem claim10_theorem :
    ∀ (toDt f1 f2 f3 f4 f5 g1 g2 : DFv → DFv) (d : DFv),
      ((runA (addSeriesAliasProg toDt f1 f2 f3 f4 f5 g1 g2)
          { heap := [d], dfIdx := 0, anIdx := 0 }).heap.getD 0 []) = d := by
  intro toDt f1 f2 f3 f4 f5 g1 g2 d
  rfl

end BBApp
